import Mathlib

/-!
Shallow embedding of the computational core of FinTrack Pro (src/app.py):
the compound-growth simulator `simulate_growth` and the ledger aggregation
used by the Dashboard, Goal Tracker and Settings pages.  Python/pandas
numbers are modelled as rationals (ℚ); a pandas `NaN` amount is `none`
(pandas `sum` skips it) and a `NaT` date is `none` (pandas `nunique`
skips it).
-/

namespace FinTrack

/-- One row of the transaction sheet: columns Type, Amount, Note, Date.
`amount = none` models a missing/NaN Amount cell (skipped by pandas sums);
`date = none` models a missing/unparseable Date (`pd.to_datetime(...,
errors="coerce")` yields NaT, which `nunique` does not count).  Dates are
abstracted as day codes in ℕ. -/
structure Transaction where
  type : String
  amount : Option ℚ
  note : Option String
  date : Option ℕ
deriving DecidableEq, Repr

/-- The loop body of `simulate_growth` (src/app.py lines 43-47): `k` is the
number of remaining iterations, `day` the current 1-based loop counter,
`balance` the running balance.  Each iteration adds the monthly top-up when
`day % 20 == 1`, multiplies by `1 + daily_rate/100`, and appends. -/
def simGo (monthly_topup daily_rate : ℚ) : ℕ → ℕ → ℚ → List ℚ
  | 0, _, _ => []
  | k + 1, day, balance =>
    let b1 := if day % 20 = 1 then balance + monthly_topup else balance
    let b2 := b1 * (1 + daily_rate / 100)
    b2 :: simGo monthly_topup daily_rate k (day + 1) b2

/-- `simulate_growth` (src/app.py lines 40-48): `days = months * 20`,
balance starts at 0, loop for day in range(1, days+1). -/
def simulate_growth (monthly_topup daily_rate : ℚ) (months : ℕ) : List ℚ :=
  simGo monthly_topup daily_rate (months * 20) 1 0

/-- The simulator as the spec words it: for 1-based step `i`, the
contribution is added when `(i - 1) mod 20 = 0`.  Used to compare the
spec's description with the code's `day % 20 == 1` test. -/
def simSpecGo (monthly_topup daily_rate : ℚ) : ℕ → ℕ → ℚ → List ℚ
  | 0, _, _ => []
  | k + 1, day, balance =>
    let b1 := if (day - 1) % 20 = 0 then balance + monthly_topup else balance
    let b2 := b1 * (1 + daily_rate / 100)
    b2 :: simSpecGo monthly_topup daily_rate k (day + 1) b2

/-- Spec-worded simulator: n*20 steps, balance 0, 1-based steps. -/
def simulateSpec (monthly_topup daily_rate : ℚ) (months : ℕ) : List ℚ :=
  simSpecGo monthly_topup daily_rate (months * 20) 1 0

/-- `df[df["Type"] == t]["Amount"].sum()` (src/app.py lines 61-62, 180-182):
sum of the Amount column over rows of a given Type; NaN amounts are
skipped, i.e. contribute 0. -/
def sumByType (t : String) (txs : List Transaction) : ℚ :=
  ((txs.filter (fun tx => tx.type == t)).map (fun tx => tx.amount.getD 0)).sum

/-- Dashboard balance (src/app.py line 63): `top_up + profit` — the
Dashboard page does not include withdrawals. -/
def dashboardBalance (txs : List Transaction) : ℚ :=
  sumByType "topup" txs + sumByType "profit" txs

/-- Goal Tracker balance (src/app.py line 183):
`top_up + profit + withdraw`. -/
def goalTrackerBalance (txs : List Transaction) : ℚ :=
  sumByType "topup" txs + sumByType "profit" txs + sumByType "withdraw" txs

/-- Dashboard ROI (src/app.py line 64) as a function of the two totals:
`(profit / top_up * 100) if top_up else 0`. -/
def roi_percent (top_up_total profit_total : ℚ) : ℚ :=
  if top_up_total ≠ 0 then profit_total / top_up_total * 100 else 0

/-- Goal Tracker progress (src/app.py line 184):
`(balance / goal * 100) if goal else 0`, on the Goal Tracker balance. -/
def goalProgress (txs : List Transaction) (goal : ℚ) : ℚ :=
  if goal ≠ 0 then goalTrackerBalance txs / goal * 100 else 0

/-- `df["Date"].nunique()` (src/app.py line 121): the number of distinct
non-null dates over ALL rows of the sheet. -/
def distinctDates (txs : List Transaction) : ℕ :=
  ((txs.filterMap (fun tx => tx.date)).dedup).length

/-- Profit total, `df[df["Type"] == "profit"]["Amount"].sum()`. -/
def profitTotal (txs : List Transaction) : ℚ :=
  sumByType "profit" txs

/-- `avg_daily = profit / df["Date"].nunique()` (src/app.py line 121). -/
def avgDaily (txs : List Transaction) : ℚ :=
  profitTotal txs / (distinctDates txs : ℚ)

/-- Python `int()` applied to a rational: truncation toward zero. -/
def truncQ (x : ℚ) : ℤ :=
  if 0 ≤ x then ⌊x⌋ else ⌈x⌉

/-- Dashboard goal forecast (src/app.py lines 119-125): shown only under
`if profit > 0`; `days_left = int(remaining / avg_daily) if avg_daily
else 0` with `remaining = 100_000_000 - balance`.  Returns the days_left
value when the forecast is rendered, `none` when it is not. -/
def goalForecast (txs : List Transaction) : Option ℤ :=
  if 0 < profitTotal txs then
    some (if avgDaily txs ≠ 0 then
            truncQ ((100000000 - dashboardBalance txs) / avgDaily txs)
          else 0)
  else none

/-- Count of distinct dates among profit transactions only.  Follows the
spec's words for the ETA denominator (claim comparison definition); the
code's denominator is `distinctDates`, over all rows. -/
def distinctProfitDates (txs : List Transaction) : ℕ :=
  (((txs.filter (fun tx => tx.type == "profit")).filterMap
      (fun tx => tx.date)).dedup).length

/-- The payload posted to the sheet web app: `{type, amount, note}`. -/
structure Payload where
  ptype : String
  pamount : ℤ
  pnote : String
deriving DecidableEq, Repr

/-- `df[df["Type"] != "withdraw"]["Amount"].sum()` (src/app.py line 195):
the Settings page's notion of current balance. -/
def nonWithdrawSum (txs : List Transaction) : ℚ :=
  ((txs.filter (fun tx => tx.type != "withdraw")).map
      (fun tx => tx.amount.getD 0)).sum

/-- Settings auto-daily-profit action (src/app.py lines 193-197):
`gain = int(current_balance * 0.015)` posted as a profit transaction. -/
def autoDailyPayload (txs : List Transaction) : Payload :=
  { ptype := "profit"
    pamount := truncQ (nonWithdrawSum txs * (0.015 : ℚ))
    pnote := "Simulated daily gain" }

/-! Helper lemmas about the simulator loop. -/

theorem simGo_length (c r : ℚ) :
    ∀ (k day : ℕ) (b : ℚ), (simGo c r k day b).length = k := by
  intro k
  induction k with
  | zero => intro day b; rfl
  | succ k ih =>
    intro day b
    simp only [simGo, List.length_cons, ih]

theorem simGo_eq_simSpecGo (c r : ℚ) :
    ∀ (k day : ℕ), 1 ≤ day → ∀ b : ℚ,
      simGo c r k day b = simSpecGo c r k day b := by
  intro k
  induction k with
  | zero => intro day _ b; rfl
  | succ k ih =>
    intro day hday b
    have hcond : (day % 20 = 1) ↔ ((day - 1) % 20 = 0) := by omega
    simp only [simGo, simSpecGo]
    by_cases h : day % 20 = 1
    · rw [if_pos h, if_pos (hcond.mp h), ih (day + 1) (by omega)]
    · rw [if_neg h, if_neg (fun hh => h (hcond.mpr hh)), ih (day + 1) (by omega)]

theorem chain'_of_chain {b : ℚ} {l : List ℚ}
    (h : List.Chain (· ≤ ·) b l) : List.Chain' (· ≤ ·) l := by
  cases l with
  | nil => trivial
  | cons x xs => exact (List.chain_cons.mp h).2

theorem growth_step_le {b b1 r : ℚ} (hb : b ≤ b1) (h0 : 0 ≤ b1) (hr : 0 ≤ r) :
    b ≤ b1 * (1 + r / 100) ∧ 0 ≤ b1 * (1 + r / 100) := by
  have hq : (0:ℚ) ≤ r / 100 := div_nonneg hr (by norm_num)
  have hfac : (1:ℚ) ≤ 1 + r / 100 := by linarith
  have h12 : b1 ≤ b1 * (1 + r / 100) := le_mul_of_one_le_right h0 hfac
  exact ⟨le_trans hb h12, le_trans h0 h12⟩

theorem simGo_chain (c r : ℚ) (hc : 0 ≤ c) (hr : 0 ≤ r) :
    ∀ (k day : ℕ) (b : ℚ), 0 ≤ b →
      List.Chain (· ≤ ·) b (simGo c r k day b) := by
  intro k
  induction k with
  | zero => intro day b _; exact List.Chain.nil
  | succ k ih =>
    intro day b hb
    simp only [simGo]
    have hite : b ≤ (if day % 20 = 1 then b + c else b) ∧
        0 ≤ (if day % 20 = 1 then b + c else b) := by
      split <;> exact ⟨by linarith, by linarith⟩
    obtain ⟨h1, h2⟩ := growth_step_le hite.1 hite.2 hr
    exact List.Chain.cons h1 (ih (day + 1) _ h2)

theorem simGo_zero_topup (r : ℚ) :
    ∀ (k day : ℕ), simGo 0 r k day 0 = List.replicate k 0 := by
  intro k
  induction k with
  | zero => intro day; rfl
  | succ k ih =>
    intro day
    simp only [simGo, List.replicate_succ]
    have h : (if day % 20 = 1 then (0:ℚ) + 0 else 0) * (1 + r / 100) = 0 := by
      split <;> ring
    rw [h, ih (day + 1)]

/-! Claims about the simulator. -/

/-- C1: `simulate_growth c r n` is exactly the trajectory described by the
spec: `n * 20` steps from balance 0, the contribution added at each 1-based
step `i` with `(i - 1) % 20 = 0`, then the balance multiplied by
`1 + r/100` and appended; `n = 0` yields the empty list. -/
theorem C1_simulate_matches_spec (c r : ℚ) (n : ℕ) :
    simulate_growth c r n = simulateSpec c r n ∧
    (simulate_growth c r n).length = n * 20 ∧
    simulate_growth c r 0 = [] := by
  refine ⟨?_, ?_, rfl⟩
  · exact simGo_eq_simSpecGo c r (n * 20) 1 le_rfl 0
  · exact simGo_length c r (n * 20) 1 0

/-- C5: for a non-negative contribution, a non-negative rate and at least
one cycle, the simulated trajectory is non-decreasing step to step. -/
theorem C5_simulate_monotone (c r : ℚ) (n : ℕ)
    (hc : 0 ≤ c) (hr : 0 ≤ r) (_hn : 1 ≤ n) :
    List.Chain' (· ≤ ·) (simulate_growth c r n) :=
  chain'_of_chain (simGo_chain c r hc hr (n * 20) 1 0 le_rfl)

/-- Witness for C5 at `c = 1`, `r = 1`, `n = 1`. -/
theorem C5_simulate_monotone_witness :
    (0:ℚ) ≤ 1 ∧ (0:ℚ) ≤ 1 ∧ 1 ≤ 1 ∧
    List.Chain' (· ≤ ·) (simulate_growth 1 1 1) :=
  ⟨by norm_num, by norm_num, le_rfl,
    C5_simulate_monotone 1 1 1 (by norm_num) (by norm_num) le_rfl⟩

/-- C9: with zero periodic contribution the balance stays 0 at every one
of the `n * 20` steps, whatever the rate. -/
theorem C9_zero_contribution (r : ℚ) (n : ℕ) :
    simulate_growth 0 r n = List.replicate (n * 20) 0 :=
  simGo_zero_topup r (n * 20) 1

/-! Helper lemmas about the aggregator. -/

theorem sumByType_append (t : String) (xs ys : List Transaction) :
    sumByType t (xs ++ ys) = sumByType t xs + sumByType t ys := by
  simp [sumByType, List.filter_append]

/-! Claims about the aggregator. -/

/-- C6: the Dashboard ROI equals `profit / top_up * 100` for a non-zero
top-up total and 0 for a zero one; in particular `roi_percent 0 500 = 0`
(a zero denominator yields 0, not an error). -/
theorem C6_roi_total (t p : ℚ) :
    roi_percent t p = (if t = 0 then 0 else p / t * 100) ∧
    roi_percent 0 500 = 0 := by
  constructor
  · unfold roi_percent
    by_cases h : t = 0 <;> simp [h]
  · simp [roi_percent]

/-- Ledger used by the C3 counterexample: a single withdrawal. -/
def withdrawOnly : List Transaction :=
  [⟨"withdraw", some (-20000), none, none⟩]

/-- C3 counterexample: on a ledger holding one withdrawal of -20000 the
Dashboard balance is 0, not the three-way sum -20000 — the Dashboard
aggregation ignores withdraw transactions, so the balance is NOT always
top-up + profit + withdraw. -/
theorem C3_counterexample :
    dashboardBalance withdrawOnly ≠
      sumByType "topup" withdrawOnly + sumByType "profit" withdrawOnly +
        sumByType "withdraw" withdrawOnly := by
  norm_num +decide [dashboardBalance, sumByType, withdrawOnly, List.filter_cons]

/-- C3 amended: the Goal Tracker balance is top-up + profit + withdraw, so
appending a withdrawal of amount `a` shifts it by exactly `a`; the
Dashboard balance is top-up + profit only and is unchanged by the same
withdrawal. -/
theorem C3_withdraw_effect (txs : List Transaction) (a : ℚ) :
    goalTrackerBalance (txs ++ [⟨"withdraw", some a, none, none⟩]) =
      goalTrackerBalance txs + a ∧
    dashboardBalance (txs ++ [⟨"withdraw", some a, none, none⟩]) =
      dashboardBalance txs := by
  have ht := sumByType_append "topup" txs [⟨"withdraw", some a, none, none⟩]
  have hp := sumByType_append "profit" txs [⟨"withdraw", some a, none, none⟩]
  have hw := sumByType_append "withdraw" txs [⟨"withdraw", some a, none, none⟩]
  have e1 : sumByType "topup" [(⟨"withdraw", some a, none, none⟩ : Transaction)] = 0 := by
    simp +decide [sumByType, List.filter_cons]
  have e2 : sumByType "profit" [(⟨"withdraw", some a, none, none⟩ : Transaction)] = 0 := by
    simp +decide [sumByType, List.filter_cons]
  have e3 : sumByType "withdraw" [(⟨"withdraw", some a, none, none⟩ : Transaction)] = a := by
    simp +decide [sumByType, List.filter_cons]
  constructor
  · unfold goalTrackerBalance
    rw [ht, hp, hw, e1, e2, e3]; ring
  · unfold dashboardBalance
    rw [ht, hp, e1, e2]; ring

/-- Ledger used by the C8 scenario from the spec's test table. -/
def scenarioLedger : List Transaction :=
  [⟨"topup", some 1000000, none, none⟩, ⟨"profit", some 50000, none, none⟩,
   ⟨"profit", some 50000, none, none⟩, ⟨"withdraw", some (-20000), none, none⟩]

/-- C8: on the spec's example ledger the Goal Tracker balance is
1,080,000, the Dashboard ROI is 10, and the progress toward the
10,000,000 goal is 10.8 percent. -/
theorem C8_scenario :
    goalTrackerBalance scenarioLedger = 1080000 ∧
    roi_percent (sumByType "topup" scenarioLedger)
      (sumByType "profit" scenarioLedger) = 10 ∧
    goalProgress scenarioLedger 10000000 = 10.8 := by
  refine ⟨?_, ?_, ?_⟩ <;>
    norm_num +decide [goalTrackerBalance, goalProgress, roi_percent, sumByType,
      scenarioLedger, List.filter_cons]

/-- Ledger used by the C2 counterexample: balance already past the goal,
positive profit. -/
def pastGoalLedger : List Transaction :=
  [⟨"topup", some 200000000, none, some 0⟩, ⟨"profit", some 50000, none, some 0⟩]

/-- C2 counterexample: with a positive profit total and a balance already
at 200,050,000 ≥ 100,000,000, the Dashboard still renders a forecast —
the code checks only `profit > 0`, so the claim that no forecast is
produced when the balance is at or above the goal is false. -/
theorem C2_counterexample :
    0 < profitTotal pastGoalLedger ∧
    (100000000:ℚ) ≤ dashboardBalance pastGoalLedger ∧
    goalForecast pastGoalLedger ≠ none := by
  refine ⟨?_, ?_, ?_⟩ <;>
    norm_num +decide [goalForecast, profitTotal, dashboardBalance, sumByType,
      pastGoalLedger, List.filter_cons]

/-- C2 amended: the Dashboard forecast is suppressed exactly when the
profit total is non-positive; when the profit total is positive a
days-remaining value is produced even if the balance is already at or
above the goal. -/
theorem C2_forecast_iff (txs : List Transaction) :
    goalForecast txs = none ↔ profitTotal txs ≤ 0 := by
  unfold goalForecast
  by_cases h : 0 < profitTotal txs <;> simp [h]
  all_goals linarith

/-- Ledger used by the C4 counterexample and amended witness: one profit
transaction on one date and one top-up on another date. -/
def twoDateLedger : List Transaction :=
  [⟨"profit", some 100, none, some 0⟩, ⟨"topup", some 50, none, some 1⟩]

/-- The ETA denominator worded as the claim states it: the profit total
over the distinct dates among profit transactions only, 0 when there are
none.  Compared against the code's `avgDaily`. -/
def avgDailyClaim (txs : List Transaction) : ℚ :=
  if 0 < distinctProfitDates txs then
    profitTotal txs / (distinctProfitDates txs : ℚ)
  else 0

/-- C4 counterexample: on a ledger with one dated profit and one dated
top-up the code's average (profit over ALL distinct dates, here 100/2 =
50) differs from the claim's average over profit dates only (100/1 =
100). -/
theorem C4_counterexample : avgDaily twoDateLedger ≠ avgDailyClaim twoDateLedger := by
  norm_num +decide [avgDaily, avgDailyClaim, profitTotal, sumByType,
    distinctDates, distinctProfitDates, twoDateLedger, List.filter_cons,
    List.filterMap, List.dedup, List.pwFilter]

/-- C4 amended: the extrapolation average divides the profit total by the
number of distinct parseable dates among ALL transactions (profit or
not); rows without a parseable date are not counted.  Stated for a
positive date count, the only case the code reaches without dividing by
zero. -/
theorem C4_avg_daily (txs : List Transaction)
    (_h : 0 < ((txs.filterMap (fun tx => tx.date)).toFinset.card)) :
    avgDaily txs =
      profitTotal txs / (((txs.filterMap (fun tx => tx.date)).toFinset.card : ℕ) : ℚ) := by
  unfold avgDaily distinctDates
  rw [List.card_toFinset]

/-- Witness for C4 at the two-date ledger. -/
theorem C4_avg_daily_witness :
    0 < ((twoDateLedger.filterMap (fun tx => tx.date)).toFinset.card) ∧
    avgDaily twoDateLedger =
      profitTotal twoDateLedger /
        (((twoDateLedger.filterMap (fun tx => tx.date)).toFinset.card : ℕ) : ℚ) :=
  ⟨by decide, C4_avg_daily twoDateLedger (by decide)⟩

/-- Record used by the C7 witness: amount missing, date present. -/
def datedNoAmount : Transaction := ⟨"profit", none, none, some 5⟩

/-- Record used by the C7 witness: amount present, date missing. -/
def datelessTopup : Transaction := ⟨"topup", some 7, none, none⟩

/-- C7: independently of each other, a record `tx1` whose amount is
missing/NaN — its date may well be valid — contributes 0 to every
type-based sum, and a record `tx2` whose date is missing/unparseable is
excluded from the distinct-date count while its (NaN-defaulted) amount
still enters the sum for its own type. -/
theorem C7_malformed_record (tx1 tx2 : Transaction)
    (txs1 txs2 : List Transaction) (ty : String)
    (hamt : tx1.amount = none) (hdate : tx2.date = none) :
    sumByType ty (tx1 :: txs1) = sumByType ty txs1 ∧
    distinctDates (tx2 :: txs2) = distinctDates txs2 ∧
    sumByType tx2.type (tx2 :: txs2) = tx2.amount.getD 0 + sumByType tx2.type txs2 := by
  refine ⟨?_, ?_, ?_⟩
  · by_cases h : tx1.type = ty
    · simp [sumByType, List.filter_cons, h, hamt]
    · simp [sumByType, List.filter_cons, h]
  · simp [distinctDates, List.filterMap_cons, hdate]
  · simp [sumByType, List.filter_cons]

/-- Witness for C7 at an amountless-but-dated profit record and a
dateless-but-amounted top-up record. -/
theorem C7_malformed_record_witness :
    sumByType "profit" [datedNoAmount] = sumByType "profit" [] ∧
    distinctDates [datelessTopup] = distinctDates [] ∧
    sumByType datelessTopup.type [datelessTopup] =
      datelessTopup.amount.getD 0 + sumByType datelessTopup.type [] :=
  C7_malformed_record datedNoAmount datelessTopup [] [] "profit" rfl rfl

/-- On a ledger whose every type is one of topup/profit/withdraw, the
Settings page's `Type != "withdraw"` base is the top-up total plus the
profit total. -/
theorem sumByType_cons (t : String) (tx : Transaction) (txs : List Transaction) :
    sumByType t (tx :: txs) =
      (if tx.type = t then tx.amount.getD 0 else 0) + sumByType t txs := by
  by_cases h : tx.type = t <;> simp [sumByType, List.filter_cons, h]

theorem nonWithdrawSum_cons (tx : Transaction) (txs : List Transaction) :
    nonWithdrawSum (tx :: txs) =
      (if tx.type = "withdraw" then 0 else tx.amount.getD 0) + nonWithdrawSum txs := by
  by_cases h : tx.type = "withdraw" <;> simp [nonWithdrawSum, List.filter_cons, h]

theorem nonWithdrawSum_eq (txs : List Transaction)
    (h : ∀ tx ∈ txs, tx.type = "topup" ∨ tx.type = "profit" ∨ tx.type = "withdraw") :
    nonWithdrawSum txs = sumByType "topup" txs + sumByType "profit" txs := by
  induction txs with
  | nil => simp [nonWithdrawSum, sumByType]
  | cons tx txs ih =>
    have htx := h tx (by simp)
    have hrest : ∀ t ∈ txs, t.type = "topup" ∨ t.type = "profit" ∨ t.type = "withdraw" :=
      fun t ht => h t (by simp [ht])
    rw [nonWithdrawSum_cons, sumByType_cons, sumByType_cons, ih hrest]
    rcases htx with h1 | h1 | h1 <;> rw [h1] <;> simp +decide <;> try ring

/-- C10: the auto-daily-profit action posts a profit payload whose amount
is the non-withdraw total — top-ups included — times 0.015, truncated
toward zero.  Stated for ledgers whose types are all
topup/profit/withdraw. -/
theorem C10_auto_daily (txs : List Transaction)
    (h : ∀ tx ∈ txs, tx.type = "topup" ∨ tx.type = "profit" ∨ tx.type = "withdraw") :
    autoDailyPayload txs =
      ⟨"profit",
        truncQ ((sumByType "topup" txs + sumByType "profit" txs) * (3 / 200)),
        "Simulated daily gain"⟩ := by
  unfold autoDailyPayload
  have e : (0.015 : ℚ) = 3 / 200 := by norm_num
  rw [nonWithdrawSum_eq txs h, e]

/-- Witness for C10: on [topup 1000, profit 2000, withdraw -500] the
posted payload is a profit of 45 = int(3000 * 0.015). -/
theorem C10_auto_daily_witness :
    autoDailyPayload
        [⟨"topup", some 1000, none, none⟩, ⟨"profit", some 2000, none, none⟩,
         ⟨"withdraw", some (-500), none, none⟩] =
      ⟨"profit", 45, "Simulated daily gain"⟩ := by
  rw [C10_auto_daily _ (by simp +decide)]
  norm_num +decide [sumByType, List.filter_cons, truncQ]

end FinTrack
